import Mathlib

/-!
Verification development for the rust_ofp OpenFlow 1.0 controller library.

The Rust sources are shallowly embedded: byte buffers are `List Nat`
(entries are byte values), `Cursor<Vec<u8>>` is a pair of the underlying
buffer and the read position, machine integers are `Nat` (or `Int` for the
signed buffer-id fields) with explicit `% 2^w` truncation where the Rust
code casts, and functions that can panic (`unwrap`, explicit `panic!`)
return `Option`.
-/

set_option maxRecDepth 10000
set_option linter.dupNamespace false

namespace RustOfp

/-! ### src/bits.rs -/

/-- Rust `bits::bit`: set bit `k` of `x` on if `toggle` is true, otherwise off
(`x | (1 << k)` / `x & !(1 << k)` on `u64`). -/
def bit (k x : Nat) (toggle : Bool) : Nat :=
  if toggle then x ||| (1 <<< k)
  else x &&& ((18446744073709551615 : Nat) ^^^ (1 <<< k))

/-- Rust `bits::test_bit`: whether bit `k` of `x` is set. -/
def test_bit (k x : Nat) : Bool :=
  (x >>> k) &&& 1 == 1

/-! ### byteorder primitives (big-endian writers over `Vec<u8>`) -/

def write_u8 (v : Nat) : List Nat := [v % 256]

def write_u16 (v : Nat) : List Nat := [v / 256 % 256, v % 256]

def write_u32 (v : Nat) : List Nat :=
  [v / 16777216 % 256, v / 65536 % 256, v / 256 % 256, v % 256]

def write_u64 (v : Nat) : List Nat :=
  [v / 72057594037927936 % 256, v / 281474976710656 % 256,
   v / 1099511627776 % 256, v / 4294967296 % 256,
   v / 16777216 % 256, v / 65536 % 256, v / 256 % 256, v % 256]

/-- Rust `write_i32`: twos-complement big-endian encoding of a signed 32-bit
value (a `u32` reinterpreted as `i32` marshals to the same four bytes). -/
def write_i32 (n : Int) : List Nat := write_u32 (n % 4294967296).toNat

/-- Rust `write_i64`: twos-complement big-endian encoding of a signed 64-bit value. -/
def write_i64 (n : Int) : List Nat := write_u64 (n % 18446744073709551616).toNat

/-! ### byteorder primitives (readers over `Cursor<Vec<u8>>`)

A `Cursor` is the underlying buffer together with the read position.
A failed read (`read past the end` + `.unwrap()`) is `none` (panic). -/

abbrev Cursor := List Nat × Nat

def read_u8 (c : Cursor) : Option (Nat × Cursor) :=
  if c.2 < c.1.length then some (c.1.getD c.2 0, (c.1, c.2 + 1)) else none

def read_u16 (c : Cursor) : Option (Nat × Cursor) := do
  let (b0, c) ← read_u8 c
  let (b1, c) ← read_u8 c
  some (256 * b0 + b1, c)

def read_u32 (c : Cursor) : Option (Nat × Cursor) := do
  let (b0, c) ← read_u16 c
  let (b1, c) ← read_u16 c
  some (65536 * b0 + b1, c)

def read_u64 (c : Cursor) : Option (Nat × Cursor) := do
  let (b0, c) ← read_u32 c
  let (b1, c) ← read_u32 c
  some (4294967296 * b0 + b1, c)

/-- Rust `BufRead::consume` on a cursor: advance the position, saturating at
the end of the buffer. -/
def consume (n : Nat) (c : Cursor) : Cursor :=
  (c.1, min (c.2 + n) c.1.length)

/-- Read `n` raw bytes (the `for i in 0..n { arr[i] = bytes.read_u8() }` loops). -/
def read_bytes : Nat → Cursor → Option (List Nat × Cursor)
  | 0, c => some ([], c)
  | n + 1, c => do
    let (b, c) ← read_u8 c
    let (rest, c) ← read_bytes n c
    some (b :: rest, c)

/-! ### src/openflow0x01.rs : Mask, Pattern, Wildcards -/

structure Mask (α : Type) where
  value : α
  mask : Option α
deriving DecidableEq

/-- Fields to match against flows. `dl_src`/`dl_dst` are 6-byte MAC arrays. -/
structure Pattern where
  dl_src : Option (List Nat)
  dl_dst : Option (List Nat)
  dl_typ : Option Nat
  dl_vlan : Option (Option Nat)
  dl_vlan_pcp : Option Nat
  nw_src : Option (Mask Nat)
  nw_dst : Option (Mask Nat)
  nw_proto : Option Nat
  nw_tos : Option Nat
  tp_src : Option Nat
  tp_dst : Option Nat
  in_port : Option Nat
deriving DecidableEq

structure Wildcards where
  in_port : Bool
  dl_vlan : Bool
  dl_src : Bool
  dl_dst : Bool
  dl_type : Bool
  nw_proto : Bool
  tp_src : Bool
  tp_dst : Bool
  nw_src : Nat
  nw_dst : Nat
  dl_vlan_pcp : Bool
  nw_tos : Bool
deriving DecidableEq

def Wildcards.set_nw_mask (f : Nat) (offset : Nat) (v : Nat) : Nat :=
  f ||| ((63 &&& v) <<< offset)

def Wildcards.get_nw_mask (f : Nat) (offset : Nat) : Nat :=
  (f >>> offset) &&& 63

def Wildcards.mask_bits (x : Option (Mask Nat)) : Nat :=
  match x with
  | none => 32
  | some x =>
    match x.mask with
    | none => 0
    | some m => m

/-- Rust `Wildcards::marshal`: build the 32-bit wildcard word and emit it
big-endian.  Each `as u32` cast in the source is a `% 2^32`. -/
def Wildcards.marshal (w : Wildcards) : List Nat :=
  let ret := 0
  let ret := bit 0 ret w.in_port % 4294967296
  let ret := bit 1 ret w.dl_vlan % 4294967296
  let ret := bit 2 ret w.dl_src % 4294967296
  let ret := bit 3 ret w.dl_dst % 4294967296
  let ret := bit 4 ret w.dl_type % 4294967296
  let ret := bit 5 ret w.nw_proto % 4294967296
  let ret := bit 6 ret w.tp_src % 4294967296
  let ret := bit 7 ret w.tp_dst % 4294967296
  let ret := Wildcards.set_nw_mask ret 8 w.nw_src
  let ret := Wildcards.set_nw_mask ret 14 w.nw_dst
  let ret := bit 20 ret w.dl_vlan_pcp % 4294967296
  let ret := bit 21 ret w.nw_tos % 4294967296
  write_u32 ret

def Wildcards.parse (bits : Nat) : Wildcards :=
  { in_port := test_bit 0 bits
    dl_vlan := test_bit 1 bits
    dl_src := test_bit 2 bits
    dl_dst := test_bit 3 bits
    dl_type := test_bit 4 bits
    nw_proto := test_bit 5 bits
    tp_src := test_bit 6 bits
    tp_dst := test_bit 7 bits
    nw_src := Wildcards.get_nw_mask bits 8
    nw_dst := Wildcards.get_nw_mask bits 14
    dl_vlan_pcp := test_bit 20 bits
    nw_tos := test_bit 21 bits }

def Pattern.match_all : Pattern :=
  { dl_src := none
    dl_dst := none
    dl_typ := none
    dl_vlan := none
    dl_vlan_pcp := none
    nw_src := none
    nw_dst := none
    nw_proto := none
    nw_tos := none
    tp_src := none
    tp_dst := none
    in_port := none }

def Pattern.wildcards_of_pattern (m : Pattern) : Wildcards :=
  { in_port := m.in_port.isNone
    dl_vlan := m.dl_vlan.isNone
    dl_src := m.dl_src.isNone
    dl_dst := m.dl_dst.isNone
    dl_type := m.dl_typ.isNone
    nw_proto := m.nw_proto.isNone
    tp_src := m.tp_src.isNone
    tp_dst := m.tp_dst.isNone
    nw_src := Wildcards.mask_bits m.nw_src
    nw_dst := Wildcards.mask_bits m.nw_dst
    dl_vlan_pcp := m.dl_vlan_pcp.isNone
    nw_tos := m.nw_tos.isNone }

/-- Rust `size_of::<OfpMatch>()` for the packed tuple
`(u32, u16, [u8;6], [u8;6], u16, u8, u8, u16, u8, u8, u16, u32, u32, u16, u16)`. -/
def Pattern.size_of (_ : Pattern) : Nat := 40

/-- Rust `Pattern::parse`.  Each wildcarded dimension is `none`; note that the
source does not read (or skip) the bytes of a wildcarded field, and that
the `nw_dst` mask reuses `w.nw_src` (sic, as in the source). -/
def Pattern.parse (bytes : Cursor) : Option (Pattern × Cursor) := do
  let (wbits, bytes) ← read_u32 bytes
  let w := Wildcards.parse wbits
  let (in_port, bytes) ←
    if w.in_port then some (none, bytes)
    else do
      let (v, bytes) ← read_u16 bytes
      some (some v, bytes)
  let (dl_src, bytes) ←
    if w.dl_src then some (none, bytes)
    else do
      let (arr, bytes) ← read_bytes 6 bytes
      some (some arr, bytes)
  let (dl_dst, bytes) ←
    if w.dl_dst then some (none, bytes)
    else do
      let (arr, bytes) ← read_bytes 6 bytes
      some (some arr, bytes)
  let (dl_vlan, bytes) ←
    if w.dl_vlan then some (none, bytes)
    else do
      let (vlan, bytes) ← read_u16 bytes
      if vlan = 0xfff then some (some none, bytes)
      else some (some (some vlan), bytes)
  let (dl_vlan_pcp, bytes) ←
    if w.dl_vlan_pcp then some (none, bytes)
    else do
      let (v, bytes) ← read_u8 bytes
      some (some v, bytes)
  let bytes := consume 1 bytes
  let (dl_typ, bytes) ←
    if w.dl_type then some (none, bytes)
    else do
      let (v, bytes) ← read_u16 bytes
      some (some v, bytes)
  let (nw_tos, bytes) ←
    if w.nw_tos then some (none, bytes)
    else do
      let (v, bytes) ← read_u8 bytes
      some (some v, bytes)
  let (nw_proto, bytes) ←
    if w.nw_proto then some (none, bytes)
    else do
      let (v, bytes) ← read_u8 bytes
      some (some v, bytes)
  let bytes := consume 2 bytes
  let (nw_src, bytes) ←
    if 32 ≤ w.nw_src then some (none, bytes)
    else if w.nw_src = 0 then do
      let (v, bytes) ← read_u32 bytes
      some (some (Mask.mk v none), bytes)
    else do
      let (v, bytes) ← read_u32 bytes
      some (some (Mask.mk v (some w.nw_src)), bytes)
  let (nw_dst, bytes) ←
    if 32 ≤ w.nw_dst then some (none, bytes)
    else if w.nw_dst = 0 then do
      let (v, bytes) ← read_u32 bytes
      some (some (Mask.mk v none), bytes)
    else do
      let (v, bytes) ← read_u32 bytes
      some (some (Mask.mk v (some w.nw_src)), bytes)
  let (tp_src, bytes) ←
    if w.tp_src then some (none, bytes)
    else do
      let (v, bytes) ← read_u16 bytes
      some (some v, bytes)
  let (tp_dst, bytes) ←
    if w.tp_dst then some (none, bytes)
    else do
      let (v, bytes) ← read_u16 bytes
      some (some v, bytes)
  some
    ({ dl_src := dl_src
       dl_dst := dl_dst
       dl_typ := dl_typ
       dl_vlan := dl_vlan
       dl_vlan_pcp := dl_vlan_pcp
       nw_src := nw_src
       nw_dst := nw_dst
       nw_proto := nw_proto
       nw_tos := nw_tos
       tp_src := tp_src
       tp_dst := tp_dst
       in_port := in_port }, bytes)

/-- The six `write_u8(arr.unwrap_or([0;6])[i])` calls of a MAC field. -/
def write_mac6 (arr : List Nat) : List Nat :=
  write_u8 (arr.getD 0 0) ++ write_u8 (arr.getD 1 0) ++ write_u8 (arr.getD 2 0) ++
  write_u8 (arr.getD 3 0) ++ write_u8 (arr.getD 4 0) ++ write_u8 (arr.getD 5 0)

/-- Rust `Pattern::marshal`: 40 bytes, wildcarded fields zero-filled. -/
def Pattern.marshal (p : Pattern) : List Nat :=
  let w := Pattern.wildcards_of_pattern p
  Wildcards.marshal w ++
  write_u16 (p.in_port.getD 0) ++
  write_mac6 (p.dl_src.getD [0, 0, 0, 0, 0, 0]) ++
  write_mac6 (p.dl_dst.getD [0, 0, 0, 0, 0, 0]) ++
  write_u16
    (match p.dl_vlan with
     | some (some v) => v
     | some none => 0xffff
     | none => 0xffff) ++
  write_u8 (p.dl_vlan_pcp.getD 0) ++
  write_u8 0 ++
  write_u16 (p.dl_typ.getD 0) ++
  write_u8 (p.nw_tos.getD 0) ++
  write_u16 0 ++
  write_u8 (p.nw_proto.getD 0) ++
  write_u32 ((p.nw_src.getD (Mask.mk 0 none)).value) ++
  write_u32 ((p.nw_dst.getD (Mask.mk 0 none)).value) ++
  write_u16 (p.tp_src.getD 0) ++
  write_u16 (p.tp_dst.getD 0)

/-! ### src/openflow0x01.rs : PseudoPort -/

/-- Port behavior. -/
inductive PseudoPort where
  | PhysicalPort : Nat → PseudoPort
  | InPort : PseudoPort
  | Table : PseudoPort
  | Normal : PseudoPort
  | Flood : PseudoPort
  | AllPorts : PseudoPort
  | Controller : Nat → PseudoPort
  | Local : PseudoPort
deriving DecidableEq

/-- The `OfpPort` reserved wire codes. -/
def OfpPort.OFPPMax : Nat := 0xff00
def OfpPort.OFPPInPort : Nat := 0xfff8
def OfpPort.OFPPTable : Nat := 0xfff9
def OfpPort.OFPPNormal : Nat := 0xfffa
def OfpPort.OFPPFlood : Nat := 0xfffb
def OfpPort.OFPPAll : Nat := 0xfffc
def OfpPort.OFPPController : Nat := 0xfffd
def OfpPort.OFPPLocal : Nat := 0xfffe
def OfpPort.OFPPNone : Nat := 0xffff

/-- Rust `PseudoPort::make`; the `panic!("Unsupported port number")` arm is `none`. -/
def PseudoPort.make (p len : Nat) : Option PseudoPort :=
  if p = OfpPort.OFPPInPort then some PseudoPort.InPort
  else if p = OfpPort.OFPPTable then some PseudoPort.Table
  else if p = OfpPort.OFPPNormal then some PseudoPort.Normal
  else if p = OfpPort.OFPPFlood then some PseudoPort.Flood
  else if p = OfpPort.OFPPAll then some PseudoPort.AllPorts
  else if p = OfpPort.OFPPController then some (PseudoPort.Controller len)
  else if p = OfpPort.OFPPLocal then some PseudoPort.Local
  else if p ≤ OfpPort.OFPPMax then some (PseudoPort.PhysicalPort p)
  else none

/-- Rust `PseudoPort::of_int`; the outer `Option` is panic propagated from `make`,
the inner one is the `Option<PseudoPort>` of the source (`OFPP_NONE` is `none`). -/
def PseudoPort.of_int (p : Nat) : Option (Option PseudoPort) :=
  if p = OfpPort.OFPPNone then some none
  else (PseudoPort.make p 0).map some

def PseudoPort.marshal (pp : PseudoPort) : List Nat :=
  match pp with
  | PseudoPort.PhysicalPort p => write_u16 p
  | PseudoPort.InPort => write_u16 OfpPort.OFPPInPort
  | PseudoPort.Table => write_u16 OfpPort.OFPPTable
  | PseudoPort.Normal => write_u16 OfpPort.OFPPNormal
  | PseudoPort.Flood => write_u16 OfpPort.OFPPFlood
  | PseudoPort.AllPorts => write_u16 OfpPort.OFPPAll
  | PseudoPort.Controller _ => write_u16 OfpPort.OFPPController
  | PseudoPort.Local => write_u16 OfpPort.OFPPLocal

/-! ### src/openflow0x01.rs : Action -/

/-- Actions associated with flows and packets. -/
inductive Action where
  | Output : PseudoPort → Action
  | SetDlVlan : Option Nat → Action
  | SetDlVlanPcp : Nat → Action
  | SetDlSrc : List Nat → Action
  | SetDlDst : List Nat → Action
  | SetNwSrc : Nat → Action
  | SetNwDst : Nat → Action
  | SetNwTos : Nat → Action
  | SetTpSrc : Nat → Action
  | SetTpDst : Nat → Action
  | Enqueue : PseudoPort → Nat → Action
deriving DecidableEq

/-- Rust `OfpActionType` discriminants (`as u16` in the source). -/
def Action.type_code (a : Action) : Nat :=
  match a with
  | Action.Output _ => 0
  | Action.SetDlVlan none => 3
  | Action.SetDlVlan (some _) => 1
  | Action.SetDlVlanPcp _ => 2
  | Action.SetDlSrc _ => 4
  | Action.SetDlDst _ => 5
  | Action.SetNwSrc _ => 6
  | Action.SetNwDst _ => 7
  | Action.SetNwTos _ => 8
  | Action.SetTpSrc _ => 9
  | Action.SetTpDst _ => 10
  | Action.Enqueue _ _ => 11

/-- Rust `Action::size_of`: `size_of::<OfpActionHeader>()` (8, including the
4 reserved pad bytes) plus the per-variant packed body size. -/
def Action.size_of (a : Action) : Nat :=
  8 +
  match a with
  | Action.Output _ => 4
  | Action.SetDlVlan none => 4
  | Action.SetDlVlan (some _) => 4
  | Action.SetDlVlanPcp _ => 4
  | Action.SetDlSrc _ => 12
  | Action.SetDlDst _ => 12
  | Action.SetNwSrc _ => 4
  | Action.SetNwDst _ => 4
  | Action.SetNwTos _ => 4
  | Action.SetTpSrc _ => 4
  | Action.SetTpDst _ => 4
  | Action.Enqueue _ _ => 12

def Action.size_of_sequence (actions : List Action) : Nat :=
  actions.foldl (fun acc x => Action.size_of x + acc) 0

/-- Rust `Action::_parse`: decode one action at the cursor.  The
`panic!("Unrecognized OfpActionType")` arm is `none`. -/
def Action._parse (bytes : Cursor) : Option (Action × Cursor) := do
  let (action_code, bytes) ← read_u16 bytes
  let (_, bytes) ← read_u16 bytes
  if action_code = 0 then do
    let (port_code, bytes) ← read_u16 bytes
    let (len, bytes) ← read_u16 bytes
    let pp ← PseudoPort.make port_code len
    some (Action.Output pp, bytes)
  else if action_code = 1 then do
    let (vid, bytes) ← read_u16 bytes
    let bytes := consume 2 bytes
    if vid = 0xffff then some (Action.SetDlVlan none, bytes)
    else some (Action.SetDlVlan (some vid), bytes)
  else if action_code = 2 then do
    let (pcp, bytes) ← read_u8 bytes
    let bytes := consume 3 bytes
    some (Action.SetDlVlanPcp pcp, bytes)
  else if action_code = 3 then do
    let bytes := consume 4 bytes
    some (Action.SetDlVlan none, bytes)
  else if action_code = 4 then do
    let (dl_addr, bytes) ← read_bytes 6 bytes
    let bytes := consume 6 bytes
    some (Action.SetDlSrc dl_addr, bytes)
  else if action_code = 5 then do
    let (dl_addr, bytes) ← read_bytes 6 bytes
    let bytes := consume 6 bytes
    some (Action.SetDlDst dl_addr, bytes)
  else if action_code = 6 then do
    let (v, bytes) ← read_u32 bytes
    some (Action.SetNwSrc v, bytes)
  else if action_code = 7 then do
    let (v, bytes) ← read_u32 bytes
    some (Action.SetNwDst v, bytes)
  else if action_code = 8 then do
    let (nw_tos, bytes) ← read_u8 bytes
    let bytes := consume 3 bytes
    some (Action.SetNwTos nw_tos, bytes)
  else if action_code = 9 then do
    let (pt, bytes) ← read_u16 bytes
    let bytes := consume 2 bytes
    some (Action.SetTpSrc pt, bytes)
  else if action_code = 10 then do
    let (pt, bytes) ← read_u16 bytes
    let bytes := consume 2 bytes
    some (Action.SetTpDst pt, bytes)
  else if action_code = 11 then do
    let (pt, bytes) ← read_u16 bytes
    let bytes := consume 6 bytes
    let (qid, bytes) ← read_u32 bytes
    let pp ← PseudoPort.make pt 0
    some (Action.Enqueue pp qid, bytes)
  else none

/-- Fuel-indexed body of `Action::parse_sequence`.  The source recursion
stops only when `bytes.get_ref().is_empty()` — the whole underlying
buffer, not the unread remainder — is empty; otherwise it parses one
action and recurses on the same cursor. -/
def Action.parse_sequence_go : Nat → Cursor → Option (List Action)
  | 0, _ => none
  | fuel + 1, bytes =>
    if bytes.1.isEmpty then some []
    else do
      let (action, bytes2) ← Action._parse bytes
      let rest ← Action.parse_sequence_go fuel bytes2
      some (action :: rest)

/-- Rust `Action::parse_sequence`.  Every successful `_parse` advances the
position by at least 8 and `_parse` fails past the end of the buffer, so
`length + 1` units of fuel are never exhausted; the fuel only bounds the
recursion so the definition is total. -/
def Action.parse_sequence (bytes : Cursor) : Option (List Action) :=
  Action.parse_sequence_go (bytes.1.length + 1) bytes

/-- Predicate of the `partition` closure in `move_controller_last`. -/
def Action.isToController (act : Action) : Bool :=
  match act with
  | Action.Output (PseudoPort.Controller _) => true
  | _ => false

/-- Rust `Action::move_controller_last`: partition out the
`Output(Controller(_))` actions and append them at the end. -/
def Action.move_controller_last (acts : List Action) : List Action :=
  let part := acts.partition Action.isToController
  part.2 ++ part.1

/-- Rust `Action::marshal`: 8-byte header (type, total length, 4 pad bytes)
followed by the per-variant body. -/
def Action.marshal (act : Action) : List Nat :=
  write_u16 (Action.type_code act) ++
  write_u16 (Action.size_of act) ++
  write_u32 0 ++
  match act with
  | Action.Output pp =>
    PseudoPort.marshal pp ++
    write_u16
      (match pp with
       | PseudoPort.Controller w => w
       | _ => 0)
  | Action.SetDlVlan none => write_u32 0xffff
  | Action.SetDlVlan (some vid) => write_u16 vid ++ write_u16 0
  | Action.SetDlVlanPcp n => write_u8 n ++ write_u8 0 ++ write_u8 0 ++ write_u8 0
  | Action.SetDlSrc mac => write_mac6 mac ++ List.replicate 6 0
  | Action.SetDlDst mac => write_mac6 mac ++ List.replicate 6 0
  | Action.SetNwSrc addr => write_u32 addr
  | Action.SetNwDst addr => write_u32 addr
  | Action.SetNwTos n => write_u8 n ++ write_u8 0 ++ write_u8 0 ++ write_u8 0
  | Action.SetTpSrc pt => write_u16 pt ++ write_u16 0
  | Action.SetTpDst pt => write_u16 pt ++ write_u16 0
  | Action.Enqueue pp qid => PseudoPort.marshal pp ++ List.replicate 6 0 ++ write_u32 qid

/-! ### src/openflow0x01.rs : Timeout, FlowMod -/

/-- How long before a flow entry expires. -/
inductive Timeout where
  | Permanent : Timeout
  | ExpiresAfter : Nat → Timeout
deriving DecidableEq

def Timeout.of_int (tm : Nat) : Timeout :=
  match tm with
  | 0 => Timeout.Permanent
  | d => Timeout.ExpiresAfter d

def Timeout.to_int (tm : Timeout) : Nat :=
  match tm with
  | Timeout.Permanent => 0
  | Timeout.ExpiresAfter d => d

/-- Type of modification to perform on a flow table (`FlowModCmd`). -/
inductive FlowModCmd where
  | AddFlow | ModFlow | ModStrictFlow | DeleteFlow | DeleteStrictFlow
deriving DecidableEq

/-- The `as u16` discriminant of a `FlowModCmd`. -/
def FlowModCmd.toNat (c : FlowModCmd) : Nat :=
  match c with
  | FlowModCmd.AddFlow => 0
  | FlowModCmd.ModFlow => 1
  | FlowModCmd.ModStrictFlow => 2
  | FlowModCmd.DeleteFlow => 3
  | FlowModCmd.DeleteStrictFlow => 4

/-- Represents modifications to a flow table from the controller. -/
structure FlowMod where
  command : FlowModCmd
  pattern : Pattern
  priority : Nat
  actions : List Action
  cookie : Nat
  idle_timeout : Timeout
  hard_timeout : Timeout
  notify_when_removed : Bool
  apply_to_packet : Option Nat
  out_port : Option PseudoPort
  check_overlap : Bool
deriving DecidableEq

def FlowMod.flags_to_int (check_overlap notify_when_removed : Bool) : Nat :=
  (if check_overlap then 2 else 0) + (if notify_when_removed then 1 else 0)

/-- Rust `FlowMod::size_of`: 40-byte pattern + 24-byte `OfpFlowMod` + actions. -/
def FlowMod.size_of (msg : FlowMod) : Nat :=
  Pattern.size_of msg.pattern + 24 + Action.size_of_sequence msg.actions

/-- The fixed (non-action) part of `FlowMod::marshal`. -/
def FlowMod.fieldBytes (fm : FlowMod) : List Nat :=
  Pattern.marshal fm.pattern ++
  write_u64 fm.cookie ++
  write_u16 fm.command.toNat ++
  write_u16 (Timeout.to_int fm.idle_timeout) ++
  write_u16 (Timeout.to_int fm.hard_timeout) ++
  write_u16 fm.priority ++
  (match fm.apply_to_packet with
   | none => write_i32 (-1)
   | some buf_id => write_u32 buf_id) ++
  (match fm.out_port with
   | none => write_u16 OfpPort.OFPPNone
   | some x => PseudoPort.marshal x) ++
  write_u16 (FlowMod.flags_to_int fm.check_overlap fm.notify_when_removed)

/-- Rust `FlowMod::marshal`.  The action loop panics
(`OFPPTable not allowed in installed flow`) on any `Output(Table)`,
modelled as `none`. -/
def FlowMod.marshal (fm : FlowMod) : Option (List Nat) :=
  let acts := Action.move_controller_last fm.actions
  if acts.any fun a =>
      match a with
      | Action.Output PseudoPort.Table => true
      | _ => false
  then none
  else some (FlowMod.fieldBytes fm ++ (acts.map Action.marshal).flatten)

/-! ### src/openflow0x01.rs : Payload, PacketIn, PacketOut -/

/-- The data associated with a packet received by the controller. -/
inductive Payload where
  | Buffered : Nat → List Nat → Payload
  | NotBuffered : List Nat → Payload
deriving DecidableEq

def Payload.size_of (payload : Payload) : Nat :=
  match payload with
  | Payload.Buffered _ buf => buf.length
  | Payload.NotBuffered buf => buf.length

def Payload.marshal (payload : Payload) : List Nat :=
  match payload with
  | Payload.Buffered _ buf => buf
  | Payload.NotBuffered buf => buf

/-- The reason a packet arrives at the controller. -/
inductive PacketInReason where
  | NoMatch | ExplicitSend
deriving DecidableEq

/-- Represents packets received by the datapath and sent to the controller. -/
structure PacketIn where
  input_payload : Payload
  total_len : Nat
  port : Nat
  reason : PacketInReason
deriving DecidableEq

/-- Rust `PacketIn::size_of`: `size_of::<OfpPacketIn>()` (10) plus the payload. -/
def PacketIn.size_of (pi : PacketIn) : Nat :=
  10 + Payload.size_of pi.input_payload

/-- Rust `PacketIn::marshal` is a no-op in the source. -/
def PacketIn.marshal (_ : PacketIn) : List Nat := []

/-- Represents packets sent from the controller. -/
structure PacketOut where
  output_payload : Payload
  port_id : Option Nat
  apply_actions : List Action
deriving DecidableEq

/-- Rust `PacketOut::size_of`: `size_of::<OfpPacketOut>()` (8) + actions + payload. -/
def PacketOut.size_of (po : PacketOut) : Nat :=
  8 + Action.size_of_sequence po.apply_actions + Payload.size_of po.output_payload

/-- The fixed (non-action, non-payload) part of `PacketOut::marshal`. -/
def PacketOut.headBytes (po : PacketOut) : List Nat :=
  (match po.output_payload with
   | Payload.Buffered n _ => write_i32 (Int.ofNat n)
   | Payload.NotBuffered _ => write_i32 (-1)) ++
  (match po.port_id with
   | some id => PseudoPort.marshal (PseudoPort.PhysicalPort id)
   | none => write_u16 OfpPort.OFPPNone) ++
  write_u16 (Action.size_of_sequence po.apply_actions)

def PacketOut.marshal (po : PacketOut) : List Nat :=
  PacketOut.headBytes po ++
  ((Action.move_controller_last po.apply_actions).map Action.marshal).flatten ++
  Payload.marshal po.output_payload

/-! ### src/openflow0x01.rs : FlowRemoved -/

/-- Reason a flow was removed from a switch. -/
inductive FlowRemovedReason where
  | IdleTimeout | HardTimeout | Delete
deriving DecidableEq

def FlowRemovedReason.toNat (r : FlowRemovedReason) : Nat :=
  match r with
  | FlowRemovedReason.IdleTimeout => 0
  | FlowRemovedReason.HardTimeout => 1
  | FlowRemovedReason.Delete => 2

/-- Flow removed (datapath -> controller); the cookie is signed (`i64`). -/
structure FlowRemoved where
  pattern : Pattern
  cookie : Int
  priority : Nat
  reason : FlowRemovedReason
  duration_sec : Nat
  duration_nsec : Nat
  idle_timeout : Timeout
  packet_count : Nat
  byte_count : Nat
deriving DecidableEq

/-- Rust `FlowRemoved::size_of`: 40-byte pattern + `size_of::<OfpFlowRemoved>()` (40). -/
def FlowRemoved.size_of (f : FlowRemoved) : Nat :=
  Pattern.size_of f.pattern + 40

/-- Rust `FlowRemoved::marshal` (the source emits 78 bytes: it does not write
the 2 pad bytes of `OfpFlowRemoved` after the idle timeout). -/
def FlowRemoved.marshal (f : FlowRemoved) : List Nat :=
  Pattern.marshal f.pattern ++
  write_i64 f.cookie ++
  write_u16 f.priority ++
  write_u8 f.reason.toNat ++
  write_u8 0 ++
  write_u32 f.duration_sec ++
  write_u32 f.duration_nsec ++
  write_u16 (Timeout.to_int f.idle_timeout) ++
  write_u64 f.packet_count ++
  write_u64 f.byte_count

/-! ### src/openflow0x01.rs : ports, switch features -/

/-- STP state of a port. -/
inductive StpState where
  | Listen | Learn | Forward | Block
deriving DecidableEq

/-- Current state of a physical port. -/
structure PortState where
  down : Bool
  stp_state : StpState
deriving DecidableEq

/-- Features of physical ports available in a datapath. -/
structure PortFeatures where
  f_10mbhd : Bool
  f_10mbfd : Bool
  f_100mbhd : Bool
  f_100mbfd : Bool
  f_1gbhd : Bool
  f_1gbfd : Bool
  f_10gbfd : Bool
  copper : Bool
  fiber : Bool
  autoneg : Bool
  pause : Bool
  pause_asym : Bool
deriving DecidableEq

/-- Flags to indicate behavior of the physical port. -/
structure PortConfig where
  down : Bool
  no_stp : Bool
  no_recv : Bool
  no_recv_stp : Bool
  no_flood : Bool
  no_fwd : Bool
  no_packet_in : Bool
deriving DecidableEq

/-- Description of a physical port. -/
structure PortDesc where
  port_no : Nat
  hw_addr : Int
  name : String
  config : PortConfig
  state : PortState
  curr : PortFeatures
  advertised : PortFeatures
  supported : PortFeatures
  peer : PortFeatures
deriving DecidableEq

/-- Rust `PortDesc::size_of`: `size_of::<OfpPhyPort>()`. -/
def PortDesc.size_of (_ : PortDesc) : Nat := 48

/-- What changed about a physical port. -/
inductive PortReason where
  | PortAdd | PortDelete | PortModify
deriving DecidableEq

/-- A physical port has changed in the datapath. -/
structure PortStatus where
  reason : PortReason
  desc : PortDesc
deriving DecidableEq

/-- Rust `PortStatus::size_of`: `size_of::<PortReason>()` (1) + `size_of::<OfpPhyPort>()` (48). -/
def PortStatus.size_of (_ : PortStatus) : Nat := 49

/-- Rust `PortStatus::marshal` is a no-op in the source. -/
def PortStatus.marshal (_ : PortStatus) : List Nat := []

/-- Capabilities supported by the datapath. -/
structure Capabilities where
  flow_stats : Bool
  table_stats : Bool
  port_stats : Bool
  stp : Bool
  ip_reasm : Bool
  queue_stats : Bool
  arp_match_ip : Bool
deriving DecidableEq

/-- Actions supported by the datapath. -/
structure SupportedActions where
  output : Bool
  set_vlan_id : Bool
  set_vlan_pcp : Bool
  strip_vlan : Bool
  set_dl_src : Bool
  set_dl_dst : Bool
  set_nw_src : Bool
  set_nw_dst : Bool
  set_nw_tos : Bool
  set_tp_src : Bool
  set_tp_dst : Bool
  enqueue : Bool
  vendor : Bool
deriving DecidableEq

/-- Switch features. -/
structure SwitchFeatures where
  datapath_id : Nat
  num_buffers : Nat
  num_tables : Nat
  supported_capabilities : Capabilities
  supported_actions : SupportedActions
  ports : List PortDesc
deriving DecidableEq

/-- Rust `SwitchFeatures::marshal` is a no-op in the source. -/
def SwitchFeatures.marshal (_ : SwitchFeatures) : List Nat := []

/-! ### src/openflow0x01.rs : errors -/

/-- Reason Hello failed. -/
inductive HelloFailed where
  | Incompatible | EPerm
deriving DecidableEq

/-- Reason the controller made a bad request to a switch. -/
inductive BadRequest where
  | BadVersion | BadType | BadStat | BadVendor | BadSubType | EPerm | BadLen
  | BufferEmpty | BufferUnknown
deriving DecidableEq

/-- Reason the controller action failed. -/
inductive BadAction where
  | BadType | BadLen | BadVendor | BadVendorType | BadOutPort | BadArgument
  | EPerm | TooMany | BadQueue
deriving DecidableEq

/-- Reason a FlowMod from the controller failed. -/
inductive FlowModFailed where
  | AllTablesFull | Overlap | EPerm | BadEmergTimeout | BadCommand | Unsupported
deriving DecidableEq

/-- Reason a PortMod from the controller failed. -/
inductive PortModFailed where
  | BadPort | BadHwAddr
deriving DecidableEq

/-- Reason a queue operation from the controller failed. -/
inductive QueueOpFailed where
  | BadPort | BadQueue | EPerm
deriving DecidableEq

/-- High-level type of OpenFlow error. -/
inductive ErrorType where
  | HelloFailed : HelloFailed → ErrorType
  | BadRequest : BadRequest → ErrorType
  | BadAction : BadAction → ErrorType
  | FlowModFailed : FlowModFailed → ErrorType
  | PortModFailed : PortModFailed → ErrorType
  | QueueOpFailed : QueueOpFailed → ErrorType
deriving DecidableEq

/-- Error message (datapath -> controller). -/
inductive Error where
  | Error : ErrorType → List Nat → Error
deriving DecidableEq

/-- Rust `Error::size_of`: `size_of::<OfpErrorMsg>()` (4) plus the raw body
(note: the source does not add the OpenFlow header size here). -/
def Error.size_of (err : RustOfp.Error) : Nat :=
  match err with
  | Error.Error _ body => 4 + body.length

/-- Rust `Error::marshal` is a no-op in the source. -/
def Error.marshal (_ : RustOfp.Error) : List Nat := []

/-! ### src/ofp_header.rs -/

/-- OpenFlow header: version, type code, total length, transaction id. -/
structure OfpHeader where
  version : Nat
  typ : Nat
  length : Nat
  xid : Nat
deriving DecidableEq

def OfpHeader.new (version typ length xid : Nat) : OfpHeader :=
  { version := version, typ := typ, length := length, xid := xid }

/-- Rust `OfpHeader::size()`: 8 bytes. -/
def OfpHeader.size : Nat := 8

/-- Rust `OfpHeader::marshal`: one byte version, one byte type code, two bytes
length, four bytes xid, big-endian. -/
def OfpHeader.marshal (header : OfpHeader) : List Nat :=
  write_u8 header.version ++ write_u8 header.typ ++
  write_u16 header.length ++ write_u32 header.xid

/-! ### src/openflow0x01.rs : message envelope -/

/-- OpenFlow 1.0 message type codes. -/
inductive MsgCode where
  | Hello | Error | EchoReq | EchoResp | Vendor | FeaturesReq | FeaturesResp
  | GetConfigReq | GetConfigResp | SetConfig | PacketIn | FlowRemoved
  | PortStatus | PacketOut | FlowMod | PortMod | StatsReq | StatsResp
  | BarrierReq | BarrierResp | QueueGetConfigReq | QueueGetConfigResp
deriving DecidableEq

/-- The `repr(u8)` discriminant of a `MsgCode`. -/
def MsgCode.toNat (c : MsgCode) : Nat :=
  match c with
  | MsgCode.Hello => 0
  | MsgCode.Error => 1
  | MsgCode.EchoReq => 2
  | MsgCode.EchoResp => 3
  | MsgCode.Vendor => 4
  | MsgCode.FeaturesReq => 5
  | MsgCode.FeaturesResp => 6
  | MsgCode.GetConfigReq => 7
  | MsgCode.GetConfigResp => 8
  | MsgCode.SetConfig => 9
  | MsgCode.PacketIn => 10
  | MsgCode.FlowRemoved => 11
  | MsgCode.PortStatus => 12
  | MsgCode.PacketOut => 13
  | MsgCode.FlowMod => 14
  | MsgCode.PortMod => 15
  | MsgCode.StatsReq => 16
  | MsgCode.StatsResp => 17
  | MsgCode.BarrierReq => 18
  | MsgCode.BarrierResp => 19
  | MsgCode.QueueGetConfigReq => 20
  | MsgCode.QueueGetConfigResp => 21

/-- Abstractions of OpenFlow 1.0 messages mapping to message codes. -/
inductive Message where
  | Hello : Message
  | Error : RustOfp.Error → Message
  | EchoRequest : List Nat → Message
  | EchoReply : List Nat → Message
  | FeaturesReq : Message
  | FeaturesReply : SwitchFeatures → Message
  | FlowMod : FlowMod → Message
  | PacketIn : PacketIn → Message
  | FlowRemoved : FlowRemoved → Message
  | PortStatus : PortStatus → Message
  | PacketOut : PacketOut → Message
  | BarrierRequest : Message
  | BarrierReply : Message
deriving DecidableEq

/-- Rust `Message::msg_code_of_message`. -/
def Message.msg_code_of_message (msg : Message) : MsgCode :=
  match msg with
  | Message.Hello => MsgCode.Hello
  | Message.Error _ => MsgCode.Error
  | Message.EchoRequest _ => MsgCode.EchoReq
  | Message.EchoReply _ => MsgCode.EchoResp
  | Message.FeaturesReq => MsgCode.FeaturesReq
  | Message.FeaturesReply _ => MsgCode.FeaturesResp
  | Message.FlowMod _ => MsgCode.FlowMod
  | Message.PacketIn _ => MsgCode.PacketIn
  | Message.FlowRemoved _ => MsgCode.FlowRemoved
  | Message.PortStatus _ => MsgCode.PortStatus
  | Message.PacketOut _ => MsgCode.PacketOut
  | Message.BarrierRequest => MsgCode.BarrierReq
  | Message.BarrierReply => MsgCode.BarrierResp

/-- Rust `Message::size_of`.  As in the source, the `Error` arm does not add
the header size, and `FeaturesReply` falls into the catch-all `_ => 0`. -/
def Message.size_of (msg : Message) : Nat :=
  match msg with
  | Message.Hello => OfpHeader.size
  | Message.Error err => RustOfp.Error.size_of err
  | Message.EchoRequest buf => OfpHeader.size + buf.length
  | Message.EchoReply buf => OfpHeader.size + buf.length
  | Message.FeaturesReq => OfpHeader.size
  | Message.FlowMod flow_mod => OfpHeader.size + FlowMod.size_of flow_mod
  | Message.PacketIn packet_in => OfpHeader.size + PacketIn.size_of packet_in
  | Message.FlowRemoved flow => OfpHeader.size + FlowRemoved.size_of flow
  | Message.PortStatus ps => OfpHeader.size + PortStatus.size_of ps
  | Message.PacketOut po => OfpHeader.size + PacketOut.size_of po
  | Message.BarrierRequest => OfpHeader.size
  | Message.BarrierReply => OfpHeader.size
  | _ => 0

/-- Rust `Message::marshal_body`.  The bodies of `Error`, `PacketIn`,
`PortStatus` and `FeaturesReply` marshal to nothing (no-op marshallers /
the catch-all `_ => ()`); `FlowMod` can panic. -/
def Message.marshal_body (msg : Message) : Option (List Nat) :=
  match msg with
  | Message.Hello => some []
  | Message.Error buf => some (RustOfp.Error.marshal buf)
  | Message.EchoReply buf => some buf
  | Message.EchoRequest buf => some buf
  | Message.FeaturesReq => some []
  | Message.FlowMod flow_mod => FlowMod.marshal flow_mod
  | Message.PacketIn packet_in => some (PacketIn.marshal packet_in)
  | Message.FlowRemoved flow => some (FlowRemoved.marshal flow)
  | Message.PortStatus sts => some (PortStatus.marshal sts)
  | Message.PacketOut po => some (PacketOut.marshal po)
  | Message.BarrierRequest => some []
  | Message.BarrierReply => some []
  | Message.FeaturesReply _ => some []

/-- Rust `Message::header_of`: version 0x01, the message code, the size of the
message truncated to `u16`, and the xid. -/
def Message.header_of (xid : Nat) (msg : Message) : OfpHeader :=
  OfpHeader.new 1 (MsgCode.toNat (Message.msg_code_of_message msg))
    (Message.size_of msg % 65536) xid

/-- Rust `Message::marshal`: marshal the header, then the body. -/
def Message.marshal (xid : Nat) (msg : Message) : Option (List Nat) :=
  (Message.marshal_body msg).map
    fun body => OfpHeader.marshal (Message.header_of xid msg) ++ body

/-- Rust `message::add_flow`. -/
def add_flow (prio : Nat) (pattern : Pattern) (actions : List Action) : FlowMod :=
  { command := FlowModCmd.AddFlow
    pattern := pattern
    priority := prio
    actions := actions
    cookie := 0
    idle_timeout := Timeout.Permanent
    hard_timeout := Timeout.Permanent
    notify_when_removed := false
    out_port := none
    apply_to_packet := none
    check_overlap := false }

/-! ### src/packet.rs : MAC address conversions -/

/-- Rust `packet::bytes_of_mac`: `arr[i] = (addr >> (8 * i)) & 0xff`. -/
def bytes_of_mac (addr : Nat) : List Nat :=
  [addr &&& 255, (addr >>> 8) &&& 255, (addr >>> 16) &&& 255,
   (addr >>> 24) &&& 255, (addr >>> 32) &&& 255, (addr >>> 40) &&& 255]

/-- Rust `packet::mac_of_bytes`: byte 0 is the most significant. -/
def mac_of_bytes (addr : List Nat) : Nat :=
  (addr.getD 0 0 <<< 40) ||| (addr.getD 1 0 <<< 32) ||| (addr.getD 2 0 <<< 24) |||
  (addr.getD 3 0 <<< 16) ||| (addr.getD 4 0 <<< 8) ||| addr.getD 5 0

/-! ### src/ofp_controller.rs : per-connection event loop

`handle_client_connected` is modelled as a function over the trace of
read results of the socket of the connection: each loop iteration either
delivers a complete framed message (header read `Ok(n)` with `n > 0`,
followed by the body read and `Message::parse`), reads zero bytes
(`Ok(_)`, peer closed), or fails (`Err(e)`).  The observable effects —
messages sent back on the stream and application callbacks — are
collected in order; `none` models a panic (`unwrap` of an absent
`switch_id`, or a duplicate `FeaturesReply`). -/

/-- One result of `stream.read` in the loop, at message granularity. -/
inductive ReadEvent where
  | message : Nat → Message → ReadEvent
  | closed : ReadEvent
  | ioError : ReadEvent
deriving DecidableEq

/-- An observable effect of the connection thread. -/
inductive CEvent where
  | sent : Nat → Message → CEvent
  | connected : Nat → CEvent
  | packet_in : Nat → Nat → CEvent
  | disconnected : Nat → CEvent
deriving DecidableEq

/-- Rust `ThreadState::process_message`: returns the new `switch_id` and the
effects, or `none` on panic (duplicate FeaturesReply, or a PacketIn
before the handshake completed). -/
def process_message (switch_id : Option Nat) (xid : Nat) (msg : Message) :
    Option (Option Nat × List CEvent) :=
  match msg with
  | Message.Hello => some (switch_id, [CEvent.sent xid Message.FeaturesReq])
  | Message.Error _ => some (switch_id, [])
  | Message.EchoRequest bytes =>
    some (switch_id, [CEvent.sent xid (Message.EchoReply bytes)])
  | Message.EchoReply _ => some (switch_id, [])
  | Message.FeaturesReq => some (switch_id, [])
  | Message.FeaturesReply feats =>
    match switch_id with
    | some _ => none
    | none => some (some feats.datapath_id, [CEvent.connected feats.datapath_id])
  | Message.FlowMod _ => some (switch_id, [])
  | Message.PacketIn _ =>
    match switch_id with
    | none => none
    | some sw => some (switch_id, [CEvent.packet_in sw xid])
  | Message.FlowRemoved _ => some (switch_id, [])
  | Message.PortStatus _ => some (switch_id, [])
  | Message.PacketOut _ => some (switch_id, [])
  | Message.BarrierRequest => some (switch_id, [])
  | Message.BarrierReply => some (switch_id, [])

/-- Rust `ThreadState::switch_disconnected`: `switch_id.unwrap()` panics when
the handshake never completed. -/
def switch_disconnected (switch_id : Option Nat) : Option (List CEvent) :=
  match switch_id with
  | none => none
  | some sw => some [CEvent.disconnected sw]

/-- The read loop of `handle_client_connected`: a delivered message is
processed and the loop continues; a zero-byte read prints and `break`s
(discarding the rest of the trace); a read error invokes
`switch_disconnected` and the loop continues. -/
def handle_loop (switch_id : Option Nat) : List ReadEvent → Option (List CEvent)
  | [] => some []
  | ReadEvent.message xid msg :: rest => do
    let (switch_id2, evs) ← process_message switch_id xid msg
    let evs2 ← handle_loop switch_id2 rest
    some (evs ++ evs2)
  | ReadEvent.closed :: _ => some []
  | ReadEvent.ioError :: rest => do
    let evs ← switch_disconnected switch_id
    let evs2 ← handle_loop switch_id rest
    some (evs ++ evs2)

/-- Rust `handle_client_connected`: send Hello with xid 0, then run the read
loop with no switch id. -/
def handle_client_connected (trace : List ReadEvent) : Option (List CEvent) :=
  (handle_loop none trace).map fun evs => CEvent.sent 0 Message.Hello :: evs

/-! ### Concrete inputs used by the individual claims -/

/-- C1: a valid `Pattern` that matches only on `nw_proto = 6`. -/
def c1Pattern : Pattern :=
  { dl_src := none
    dl_dst := none
    dl_typ := none
    dl_vlan := none
    dl_vlan_pcp := none
    nw_src := none
    nw_dst := none
    nw_proto := some 6
    nw_tos := none
    tp_src := none
    tp_dst := none
    in_port := none }

/-- C2: an `Error` message (its `size_of` omits the header size). -/
def c2ErrorMsg : Message :=
  Message.Error (Error.Error (ErrorType.HelloFailed HelloFailed.Incompatible) [])

/-- The 16-bit big-endian length field of a marshaled message buffer. -/
def lengthFieldOf (bytes : List Nat) : Nat :=
  256 * bytes.getD 2 0 + bytes.getD 3 0

/-- C3 (scenario S6): Hello, then FeaturesReply with datapath id
`0x0102030405060708` and no ports, then the peer closes the stream. -/
def c3Features : SwitchFeatures :=
  { datapath_id := 0x0102030405060708
    num_buffers := 0
    num_tables := 0
    supported_capabilities :=
      { flow_stats := false, table_stats := false, port_stats := false,
        stp := false, ip_reasm := false, queue_stats := false,
        arp_match_ip := false }
    supported_actions :=
      { output := false, set_vlan_id := false, set_vlan_pcp := false,
        strip_vlan := false, set_dl_src := false, set_dl_dst := false,
        set_nw_src := false, set_nw_dst := false, set_nw_tos := false,
        set_tp_src := false, set_tp_dst := false, enqueue := false,
        vendor := false }
    ports := [] }

def c3Trace : List ReadEvent :=
  [ReadEvent.message 42 Message.Hello,
   ReadEvent.message 42 (Message.FeaturesReply c3Features),
   ReadEvent.closed]

/-- C4: the 40-byte buffer of a fully wildcarded match. -/
def c4Buf : List Nat := Pattern.marshal Pattern.match_all

/-- C5: the byte window holding exactly one marshaled action,
`Output(PhysicalPort(2))`. -/
def c5Buf : List Nat := Action.marshal (Action.Output (PseudoPort.PhysicalPort 2))

/-- C6 (scenario S4): pattern matching `dl_src = A` and `dl_dst = B`. -/
def c6Pattern : Pattern :=
  { dl_src := some [0x00, 0x11, 0x22, 0x33, 0x44, 0x55]
    dl_dst := some [0x00, 0xaa, 0xbb, 0xcc, 0xdd, 0xee]
    dl_typ := none
    dl_vlan := none
    dl_vlan_pcp := none
    nw_src := none
    nw_dst := none
    nw_proto := none
    nw_tos := none
    tp_src := none
    tp_dst := none
    in_port := none }

/-- C6: the FlowMod produced by `add_flow(10, c6Pattern, [Output(PhysicalPort(2))])`. -/
def c6FlowMod : FlowMod :=
  add_flow 10 c6Pattern [Action.Output (PseudoPort.PhysicalPort 2)]

/-- C7 witness: a FlowMod whose actions list a Controller output first. -/
def c7FlowMod : FlowMod :=
  add_flow 10 Pattern.match_all
    [Action.Output (PseudoPort.Controller 128),
     Action.Output (PseudoPort.PhysicalPort 1)]

/-- C7 witness (scenario S5): a PacketOut with a Controller output first. -/
def c7PacketOut : PacketOut :=
  { output_payload := Payload.NotBuffered [0xde, 0xad]
    port_id := some 1
    apply_actions :=
      [Action.Output (PseudoPort.Controller 128),
       Action.Output (PseudoPort.PhysicalPort 1)] }

def c7FlowModBytes : List Nat := (FlowMod.marshal c7FlowMod).getD []

/-- C2 amended: the message variants whose bodies the library actually
emits (`Error`, `FeaturesReply`, `PacketIn` and `PortStatus` bodies are
stubbed no-ops, and `FlowRemoved::marshal` under-emits by two pad bytes). -/
def Message.marshalsFullBody (msg : Message) : Bool :=
  match msg with
  | Message.Hello => true
  | Message.EchoRequest _ => true
  | Message.EchoReply _ => true
  | Message.FeaturesReq => true
  | Message.FlowMod _ => true
  | Message.PacketOut _ => true
  | Message.BarrierRequest => true
  | Message.BarrierReply => true
  | _ => false

/-- C6: the 24-byte `OfpFlowMod` body produced for `add_flow` fields
(cookie 0, command Add, permanent timeouts, priority 10, buffer id -1,
no out port, no flags). -/
def c6BodyBytes : List Nat :=
  write_u64 0 ++ write_u16 FlowModCmd.AddFlow.toNat ++ write_u16 0 ++
  write_u16 0 ++ write_u16 10 ++ write_i32 (-1) ++
  write_u16 OfpPort.OFPPNone ++ write_u16 0

/-! ## Helper lemmas -/

theorem length_write_u8 (v : Nat) : (write_u8 v).length = 1 := rfl

theorem length_write_u16 (v : Nat) : (write_u16 v).length = 2 := rfl

theorem length_write_u32 (v : Nat) : (write_u32 v).length = 4 := rfl

theorem length_write_u64 (v : Nat) : (write_u64 v).length = 8 := rfl

theorem length_write_i32 (n : Int) : (write_i32 n).length = 4 := rfl

theorem length_write_i64 (n : Int) : (write_i64 n).length = 8 := rfl

theorem length_write_mac6 (arr : List Nat) : (write_mac6 arr).length = 6 := rfl

theorem length_wildcards_marshal (w : Wildcards) : (Wildcards.marshal w).length = 4 := rfl

theorem length_pseudoPort_marshal (pp : PseudoPort) : (PseudoPort.marshal pp).length = 2 := by
  cases pp <;> rfl

/-- Rust `Pattern::marshal` emits exactly 40 bytes for every pattern. -/
theorem length_pattern_marshal (p : Pattern) : (Pattern.marshal p).length = 40 := by
  simp [Pattern.marshal, List.length_append, length_wildcards_marshal, length_write_u16,
    length_write_u8, length_write_u32, length_write_mac6]

/-- Rust `Action::marshal` emits exactly `Action::size_of` bytes. -/
theorem length_action_marshal (a : Action) : (Action.marshal a).length = Action.size_of a := by
  cases a with
  | Output pp =>
    simp [Action.marshal, Action.size_of, List.length_append, length_write_u16,
      length_write_u32, length_pseudoPort_marshal]
  | SetDlVlan o =>
    cases o <;>
      simp [Action.marshal, Action.size_of, List.length_append, length_write_u16,
        length_write_u32]
  | Enqueue pp qid =>
    simp [Action.marshal, Action.size_of, List.length_append, length_write_u16,
      length_write_u32, length_pseudoPort_marshal]
  | SetDlSrc mac =>
    simp [Action.marshal, Action.size_of, List.length_append, length_write_u16,
      length_write_u32, length_write_mac6]
  | SetDlDst mac =>
    simp [Action.marshal, Action.size_of, List.length_append, length_write_u16,
      length_write_u32, length_write_mac6]
  | _ =>
    simp [Action.marshal, Action.size_of, List.length_append, length_write_u16,
      length_write_u8, length_write_u32]

theorem size_of_sequence_eq_sum (l : List Action) :
    Action.size_of_sequence l = (l.map Action.size_of).sum := by
  have aux : ∀ (l : List Action) (n : Nat),
      l.foldl (fun acc x => Action.size_of x + acc) n = n + (l.map Action.size_of).sum := by
    intro l
    induction l with
    | nil => intro n; simp
    | cons a t ih =>
      intro n
      simp [List.foldl, ih]
      omega
  simpa [Action.size_of_sequence] using aux l 0

theorem length_flatten_map_marshal (l : List Action) :
    ((l.map Action.marshal).flatten).length = (l.map Action.size_of).sum := by
  induction l with
  | nil => simp
  | cons a t ih => simp [ih, length_action_marshal]

theorem sum_map_filter_split (f : Action → Nat) (p : Action → Bool) (l : List Action) :
    ((l.filter fun a => ! p a).map f).sum + ((l.filter p).map f).sum = (l.map f).sum := by
  induction l with
  | nil => simp
  | cons a t ih =>
    by_cases h : p a = true
    · simp [List.filter, h]
      omega
    · simp at h
      simp [List.filter, h]
      omega

theorem move_controller_last_eq (l : List Action) :
    Action.move_controller_last l =
      (l.filter fun a => ! Action.isToController a) ++ l.filter Action.isToController := by
  simp [Action.move_controller_last, List.partition_eq_filter_filter, Function.comp_def]

theorem size_of_sequence_move (l : List Action) :
    Action.size_of_sequence (Action.move_controller_last l) = Action.size_of_sequence l := by
  rw [move_controller_last_eq, size_of_sequence_eq_sum, size_of_sequence_eq_sum,
    List.map_append, List.sum_append]
  exact sum_map_filter_split Action.size_of Action.isToController l

theorem mem_move_controller_last (a : Action) (l : List Action) :
    a ∈ Action.move_controller_last l ↔ a ∈ l := by
  rw [move_controller_last_eq]
  simp [List.mem_append, List.mem_filter]
  by_cases h : Action.isToController a = true <;> simp [h]

/-- Marshaling a message yields the 8 header bytes followed by the body. -/
theorem marshal_struct (xid : Nat) (m : Message) (out : List Nat)
    (hm : Message.marshal xid m = some out) :
    ∃ body, Message.marshal_body m = some body ∧
      out = OfpHeader.marshal (Message.header_of xid m) ++ body := by
  unfold Message.marshal at hm
  cases h : Message.marshal_body m with
  | none => rw [h] at hm; simp at hm
  | some b =>
    rw [h] at hm
    simp at hm
    exact ⟨b, rfl, hm.symm⟩

/-- The length field of a marshaled message is its (truncated) `size_of`. -/
theorem lengthFieldOf_marshal (xid : Nat) (m : Message) (out : List Nat)
    (hm : Message.marshal xid m = some out) (hsize : Message.size_of m < 65536) :
    lengthFieldOf out = Message.size_of m := by
  obtain ⟨body, _, rfl⟩ := marshal_struct xid m out hm
  have h1 : Message.size_of m % 65536 = Message.size_of m := Nat.mod_eq_of_lt hsize
  simp [lengthFieldOf, OfpHeader.marshal, Message.header_of, OfpHeader.new,
    write_u8, write_u16, write_u32, List.cons_append, h1]
  omega

/-- Rust `FlowMod::marshal`, with the `let` binding expanded. -/
theorem flowMod_marshal_eq (fm : FlowMod) :
    FlowMod.marshal fm =
      if ((Action.move_controller_last fm.actions).any fun a =>
            match a with
            | Action.Output PseudoPort.Table => true
            | _ => false) = true
      then none
      else some (FlowMod.fieldBytes fm ++
        ((Action.move_controller_last fm.actions).map Action.marshal).flatten) := by
  unfold FlowMod.marshal
  rfl

/-! ## Claim theorems -/

/-- C1.  The round-trip law `parse (marshal p) = p` fails on the code:
for the valid pattern that matches only `nw_proto = 6`, the parser
returns `nw_proto = Some 0` (marshal writes `nw_proto` after a two-byte
pad while parse reads it right after `nw_tos`, and parse skips
wildcarded fields without consuming their byte ranges), so the parsed
pattern is not the original one. -/
theorem c1_pattern_round_trip_fails :
    (Pattern.parse (Pattern.marshal c1Pattern, 0)).map (fun pr => pr.1.nw_proto) =
      some (some 0) ∧
    c1Pattern.nw_proto = some 6 ∧
    (Pattern.parse (Pattern.marshal c1Pattern, 0)).map Prod.fst ≠ some c1Pattern := by
  decide

/-- C3.  Scenario S6: after Hello and a FeaturesReply with datapath id
`0x0102030405060708`, the peer closes the stream (a read of zero bytes).
The loop breaks without invoking `switch_disconnected`: the observable
trace contains the Hello sent on connect, the FeaturesReq reply, and the
`switch_connected` callback, but no `switch_disconnected` callback —
contradicting the claim that it fires exactly once. -/
theorem c3_clean_close_never_disconnects :
    handle_client_connected c3Trace =
      some [CEvent.sent 0 Message.Hello, CEvent.sent 42 Message.FeaturesReq,
            CEvent.connected 0x0102030405060708] ∧
    ((handle_client_connected c3Trace).getD []).countP
      (fun e => match e with | CEvent.disconnected _ => true | _ => false) = 0 := by
  decide

/-- C4.  Parsing the 40-byte buffer of a fully wildcarded match consumes
only 7 bytes (the wildcard word, one pad byte and the two-byte pad),
not 40: wildcarded dimensions are skipped without consuming their byte
ranges. -/
theorem c4_wildcarded_fields_not_consumed :
    c4Buf.length = 40 ∧
    (Pattern.parse (c4Buf, 0)).map (fun pr => pr.2.2) = some 7 := by
  decide

/-- C5.  `parse_sequence` on the window holding exactly one marshaled
`Output(PhysicalPort(2))` action panics (`none`) instead of returning
that action: the stop test `bytes.get_ref().is_empty()` inspects the
whole underlying buffer rather than the unread remainder, and `_parse`
never skips the 4 pad bytes `marshal` emits.  Only the empty window
returns the empty list. -/
theorem c5_parse_sequence_panics :
    c5Buf = Action.marshal (Action.Output (PseudoPort.PhysicalPort 2)) ∧
    Action.parse_sequence (c5Buf, 0) = none ∧
    Action.parse_sequence ([], 0) = some [] := by
  decide

/-- C6 (counterexample).  The marshaled FlowMod of scenario S4 does not
begin with `01 0E 00 50`: its total length is 0x54 = 84 because an
Output action marshals to 12 bytes (8-byte header including 4 pad
bytes, plus a 4-byte body), not 16. -/
theorem c6_flowmod_bytes_counterexample :
    (Message.marshal 0 (Message.FlowMod c6FlowMod)).map (List.take 8) ≠
      some [0x01, 0x0E, 0x00, 0x50, 0, 0, 0, 0] ∧
    Action.size_of (Action.Output (PseudoPort.PhysicalPort 2)) ≠ 16 := by
  decide

/-- C6 (amended).  Marshaling (xid 0) the FlowMod produced by `add_flow`
with priority 10, the dl_src/dl_dst pattern of S4 and a single
`Output(PhysicalPort(2))` action yields the 8-byte header
`01 0E 00 54 00 00 00 00` (opcode 14, total length 0x54 = 84) followed
by the 40-byte pattern, the 24-byte FlowMod body and one 12-byte Output
action. -/
theorem c6_flowmod_bytes_amended :
    Message.marshal 0 (Message.FlowMod c6FlowMod) =
      some ([0x01, 0x0E, 0x00, 0x54, 0, 0, 0, 0] ++ Pattern.marshal c6Pattern ++
        c6BodyBytes ++ Action.marshal (Action.Output (PseudoPort.PhysicalPort 2))) ∧
    (Pattern.marshal c6Pattern).length = 40 ∧
    c6BodyBytes.length = 24 ∧
    (Action.marshal (Action.Output (PseudoPort.PhysicalPort 2))).length = 12 ∧
    (Message.marshal 0 (Message.FlowMod c6FlowMod)).map List.length = some 84 := by
  decide

/-- C7.  The marshaled byte stream of a PacketOut (and of a FlowMod that
marshals successfully) lists the non-`Output(Controller(_))` actions
first, in their original relative order, followed by the
`Output(Controller(_))` actions in their original relative order. -/
theorem c7_controller_outputs_marshal_last (po : PacketOut) (fm : FlowMod) (out : List Nat) :
    PacketOut.marshal po =
      PacketOut.headBytes po ++
        ((po.apply_actions.filter fun a => ! Action.isToController a).map
          Action.marshal).flatten ++
        ((po.apply_actions.filter Action.isToController).map Action.marshal).flatten ++
        Payload.marshal po.output_payload ∧
    (FlowMod.marshal fm = some out →
      out = FlowMod.fieldBytes fm ++
        ((fm.actions.filter fun a => ! Action.isToController a).map Action.marshal).flatten ++
        ((fm.actions.filter Action.isToController).map Action.marshal).flatten) := by
  constructor
  · unfold PacketOut.marshal
    rw [move_controller_last_eq]
    simp [List.map_append, List.flatten_append, List.append_assoc]
  · intro h
    rw [flowMod_marshal_eq] at h
    split at h
    · simp at h
    · simp at h
      subst h
      rw [move_controller_last_eq]
      simp [List.map_append, List.flatten_append, List.append_assoc]

/-- C7 (witness): instance at the action list of scenario S5
`[Output(Controller(128)), Output(PhysicalPort(1))]`. -/
theorem c7_controller_outputs_marshal_last_witness :
    PacketOut.marshal c7PacketOut =
      PacketOut.headBytes c7PacketOut ++
        ((c7PacketOut.apply_actions.filter fun a => ! Action.isToController a).map
          Action.marshal).flatten ++
        ((c7PacketOut.apply_actions.filter Action.isToController).map
          Action.marshal).flatten ++
        Payload.marshal c7PacketOut.output_payload ∧
    c7FlowModBytes = FlowMod.fieldBytes c7FlowMod ++
      ((c7FlowMod.actions.filter fun a => ! Action.isToController a).map
        Action.marshal).flatten ++
      ((c7FlowMod.actions.filter Action.isToController).map Action.marshal).flatten := by
  have h := c7_controller_outputs_marshal_last c7PacketOut c7FlowMod c7FlowModBytes
  exact ⟨h.1, h.2 (by decide)⟩

/-- C8.  `FlowMod::marshal` fails (panics, modelled `none`) exactly when
the action list contains `Output(Table)`; otherwise it produces the
marshaled buffer. -/
theorem c8_output_table_rejected (fm : FlowMod) :
    FlowMod.marshal fm = none ↔ Action.Output PseudoPort.Table ∈ fm.actions := by
  have key : ∀ l : List Action,
      (l.any fun a =>
        match a with
        | Action.Output PseudoPort.Table => true
        | _ => false) = true ↔ Action.Output PseudoPort.Table ∈ l := by
    intro l
    rw [List.any_eq_true]
    constructor
    · rintro ⟨a, ha, hpa⟩
      cases a with
      | Output pp =>
        cases pp <;> simp at hpa
        exact ha
      | _ => simp at hpa
    · intro h
      exact ⟨Action.Output PseudoPort.Table, h, rfl⟩
  rw [flowMod_marshal_eq]
  split
  · rename_i hcond
    simp only [true_iff]
    exact (mem_move_controller_last _ _).mp ((key _).mp hcond)
  · rename_i hcond
    simp only [reduceCtorEq, false_iff]
    intro hmem
    exact hcond ((key _).mpr ((mem_move_controller_last _ _).mpr hmem))

/-- C9.  `PseudoPort::make` (and `of_int`) returns `PhysicalPort(p)` for
every `p ≤ 0xff00`, maps the reserved codes `0xfff8..0xfffe` to
`InPort, Table, Normal, Flood, AllPorts, Controller, Local`, and rejects
(panics on) every undefined code strictly between `0xff00` and `0xfff8`. -/
theorem c9_pseudoport_parse_policy (p len : Nat) :
    (p ≤ 0xff00 →
      PseudoPort.make p len = some (PseudoPort.PhysicalPort p) ∧
      PseudoPort.of_int p = some (some (PseudoPort.PhysicalPort p))) ∧
    PseudoPort.make 0xfff8 len = some PseudoPort.InPort ∧
    PseudoPort.make 0xfff9 len = some PseudoPort.Table ∧
    PseudoPort.make 0xfffa len = some PseudoPort.Normal ∧
    PseudoPort.make 0xfffb len = some PseudoPort.Flood ∧
    PseudoPort.make 0xfffc len = some PseudoPort.AllPorts ∧
    PseudoPort.make 0xfffd len = some (PseudoPort.Controller len) ∧
    PseudoPort.make 0xfffe len = some PseudoPort.Local ∧
    (0xff00 < p → p < 0xfff8 →
      PseudoPort.make p len = none ∧ PseudoPort.of_int p = none) := by
  have hmake : ∀ l : Nat, p ≤ 0xff00 →
      PseudoPort.make p l = some (PseudoPort.PhysicalPort p) := by
    intro l hp
    unfold PseudoPort.make
    unfold OfpPort.OFPPInPort OfpPort.OFPPTable OfpPort.OFPPNormal OfpPort.OFPPFlood
      OfpPort.OFPPAll OfpPort.OFPPController OfpPort.OFPPLocal OfpPort.OFPPMax
    split_ifs <;> first | rfl | omega
  have hrej : ∀ l : Nat, 0xff00 < p → p < 0xfff8 → PseudoPort.make p l = none := by
    intro l h1 h2
    unfold PseudoPort.make
    unfold OfpPort.OFPPInPort OfpPort.OFPPTable OfpPort.OFPPNormal OfpPort.OFPPFlood
      OfpPort.OFPPAll OfpPort.OFPPController OfpPort.OFPPLocal OfpPort.OFPPMax
    split_ifs <;> first | rfl | omega
  refine ⟨?_, by rfl, by rfl, by rfl, by rfl, by rfl, by rfl, by rfl, ?_⟩
  · intro hp
    refine ⟨hmake len hp, ?_⟩
    unfold PseudoPort.of_int
    rw [if_neg (by unfold OfpPort.OFPPNone; omega), hmake 0 hp]
    rfl
  · intro h1 h2
    refine ⟨hrej len h1 h2, ?_⟩
    unfold PseudoPort.of_int
    rw [if_neg (by unfold OfpPort.OFPPNone; omega), hrej 0 h1 h2]
    rfl

/-- C9 (witness): physical port 2 parses as `PhysicalPort 2`; the
undefined code `0xff01` is rejected. -/
theorem c9_pseudoport_parse_policy_witness :
    PseudoPort.make 2 0 = some (PseudoPort.PhysicalPort 2) ∧
    PseudoPort.make 0xff01 0 = none := by
  have h1 := c9_pseudoport_parse_policy 2 0
  have h2 := c9_pseudoport_parse_policy 0xff01 0
  exact ⟨(h1.1 (by decide)).1,
    (h2.2.2.2.2.2.2.2.2 (by decide) (by decide)).1⟩

/-- For `x` a multiple of `2 ^ n` and `y < 2 ^ n` the bitwise or is the sum. -/
theorem lor_eq_add (n : Nat) : ∀ x y : Nat, x % 2 ^ n = 0 → y < 2 ^ n → x ||| y = x + y := by
  induction n with
  | zero =>
    intro x y _ hy
    have hy0 : y = 0 := by omega
    subst hy0
    simp
  | succ n ih =>
    intro x y hx hy
    obtain ⟨k, hk⟩ := Nat.dvd_of_mod_eq_zero hx
    have hk2 : x = 2 * (2 ^ n * k) := by rw [hk]; ring
    have hx2 : x % 2 = 0 := by rw [hk2]; exact Nat.mul_mod_right 2 _
    have hxd : x / 2 = 2 ^ n * k := by rw [hk2]; exact Nat.mul_div_cancel_left _ (by norm_num)
    have hxm : x / 2 % 2 ^ n = 0 := by rw [hxd]; exact Nat.mul_mod_right _ _
    have hyd : y / 2 < 2 ^ n := by
      have h2 : (2 : Nat) ^ (n + 1) = 2 * 2 ^ n := by ring
      omega
    have hrec := ih (x / 2) (y / 2) hxm hyd
    have hdiv : (x ||| y) / 2 = x / 2 + y / 2 := by rw [Nat.or_div_two, hrec]
    have hmod : (x ||| y) % 2 = y % 2 := by
      rcases Nat.mod_two_eq_zero_or_one y with h | h
      · have hne : ¬ ((x ||| y) % 2 = 1) := by
          rw [Nat.or_mod_two_eq_one]
          omega
        omega
      · have heq : (x ||| y) % 2 = 1 := by
          rw [Nat.or_mod_two_eq_one]
          omega
        omega
    have e1 := Nat.div_add_mod (x ||| y) 2
    have e2 := Nat.div_add_mod x 2
    have e3 := Nat.div_add_mod y 2
    omega

theorem and_255_eq_mod (x : Nat) : x &&& 255 = x % 256 := by
  have h : (255 : Nat) = 2 ^ 8 - 1 := by norm_num
  rw [h, Nat.and_pow_two_sub_one_eq_mod]

/-- C10.  For every 6-byte array, `bytes_of_mac (mac_of_bytes a)` is the
byte-reversal of `a`: `mac_of_bytes` makes `a[0]` the most significant
byte of the 48-bit value while `bytes_of_mac` places the least
significant byte at index 0. -/
theorem c10_mac_conversions_reverse (a0 a1 a2 a3 a4 a5 : Nat)
    (h0 : a0 < 256) (h1 : a1 < 256) (h2 : a2 < 256)
    (h3 : a3 < 256) (h4 : a4 < 256) (h5 : a5 < 256) :
    bytes_of_mac (mac_of_bytes [a0, a1, a2, a3, a4, a5]) = [a5, a4, a3, a2, a1, a0] ∧
    mac_of_bytes [a0, a1, a2, a3, a4, a5] =
      a0 * 1099511627776 + a1 * 4294967296 + a2 * 16777216 +
        a3 * 65536 + a4 * 256 + a5 := by
  have e : mac_of_bytes [a0, a1, a2, a3, a4, a5] =
      a0 * 1099511627776 + a1 * 4294967296 + a2 * 16777216 +
        a3 * 65536 + a4 * 256 + a5 := by
    show (((((a0 <<< 40) ||| (a1 <<< 32)) ||| (a2 <<< 24)) ||| (a3 <<< 16)) |||
        (a4 <<< 8)) ||| a5 = _
    simp only [Nat.shiftLeft_eq]
    norm_num
    rw [lor_eq_add 40 (a0 * 1099511627776) (a1 * 4294967296) (by omega) (by omega)]
    rw [lor_eq_add 32 _ (a2 * 16777216) (by omega) (by omega)]
    rw [lor_eq_add 24 _ (a3 * 65536) (by omega) (by omega)]
    rw [lor_eq_add 16 _ (a4 * 256) (by omega) (by omega)]
    rw [lor_eq_add 8 _ a5 (by omega) (by omega)]
  refine ⟨?_, e⟩
  rw [e]
  simp only [bytes_of_mac, Nat.shiftRight_eq_div_pow, and_255_eq_mod]
  norm_num
  refine ⟨?_, ?_, ?_, ?_, ?_, ?_⟩ <;> omega

/-- C10 (witness): the array `[1, 2, 3, 4, 5, 6]`. -/
theorem c10_mac_conversions_reverse_witness :
    bytes_of_mac (mac_of_bytes [1, 2, 3, 4, 5, 6]) = [6, 5, 4, 3, 2, 1] ∧
    mac_of_bytes [1, 2, 3, 4, 5, 6] =
      1 * 1099511627776 + 2 * 4294967296 + 3 * 16777216 + 4 * 65536 + 5 * 256 + 6 :=
  c10_mac_conversions_reverse 1 2 3 4 5 6 (by decide) (by decide) (by decide)
    (by decide) (by decide) (by decide)

theorem length_flowMod_fieldBytes (fm : FlowMod) : (FlowMod.fieldBytes fm).length = 64 := by
  unfold FlowMod.fieldBytes
  cases fm.apply_to_packet <;> cases fm.out_port <;>
    simp [List.length_append, length_pattern_marshal, length_write_u64, length_write_u16,
      length_write_i32, length_write_u32, length_pseudoPort_marshal]

theorem length_packetOut_headBytes (po : PacketOut) : (PacketOut.headBytes po).length = 8 := by
  unfold PacketOut.headBytes
  cases po.output_payload <;> cases po.port_id <;>
    simp [List.length_append, length_write_i32, length_write_u16, length_write_u32,
      length_pseudoPort_marshal]

theorem length_payload_marshal (p : Payload) : (Payload.marshal p).length = Payload.size_of p := by
  cases p <;> rfl

/-- C2 (counterexample).  For the `Error` message the header length
field is `4 + |payload|` (the `Error::size_of` of the source does not add the
8-byte header size), while the marshaled buffer is the bare 8-byte
header (`Error::marshal` is a no-op): the emitted length field is 4,
not `8 + |body| = 8`. -/
theorem c2_error_length_counterexample :
    (Message.marshal 0 c2ErrorMsg).map (fun out => (out.length, lengthFieldOf out)) =
      some (8, 4) ∧
    (Message.marshal 0 c2ErrorMsg).map (fun out => lengthFieldOf out) ≠ some 8 ∧
    Message.size_of (Message.FeaturesReply c3Features) = 0 := by
  decide

/-- C2 (amended).  For the message variants whose bodies the library
really emits — Hello, EchoRequest, EchoReply, FeaturesReq, FlowMod
(when marshaling succeeds), PacketOut, BarrierRequest and BarrierReply —
and whose size fits the 16-bit field, the length of the marshaled buffer
equals `Message::size_of` and the header length field equals that
buffer length, i.e. 8 plus the body length.  (For Error, FeaturesReply,
PacketIn, PortStatus and FlowRemoved the invariant fails because their
body marshallers are stubs or under-emit.) -/
theorem c2_header_length_amended (xid : Nat) (m : Message) (out : List Nat)
    (hgood : Message.marshalsFullBody m = true)
    (hsize : Message.size_of m < 65536)
    (hm : Message.marshal xid m = some out) :
    out.length = Message.size_of m ∧ lengthFieldOf out = out.length := by
  obtain ⟨body, hb, houtdef⟩ := marshal_struct xid m out hm
  have hfield : lengthFieldOf out = Message.size_of m :=
    lengthFieldOf_marshal xid m out hm hsize
  have hhd : (OfpHeader.marshal (Message.header_of xid m)).length = 8 := by
    simp [OfpHeader.marshal, write_u8, write_u16, write_u32]
  have hbody : 8 + body.length = Message.size_of m := by
    cases m with
    | Hello =>
      simp [Message.marshal_body] at hb
      simp [← hb, Message.size_of, OfpHeader.size]
    | EchoRequest buf =>
      simp [Message.marshal_body] at hb
      simp [← hb, Message.size_of, OfpHeader.size]
    | EchoReply buf =>
      simp [Message.marshal_body] at hb
      simp [← hb, Message.size_of, OfpHeader.size]
    | FeaturesReq =>
      simp [Message.marshal_body] at hb
      simp [← hb, Message.size_of, OfpHeader.size]
    | BarrierRequest =>
      simp [Message.marshal_body] at hb
      simp [← hb, Message.size_of, OfpHeader.size]
    | BarrierReply =>
      simp [Message.marshal_body] at hb
      simp [← hb, Message.size_of, OfpHeader.size]
    | FlowMod fm =>
      simp [Message.marshal_body] at hb
      rw [flowMod_marshal_eq] at hb
      split at hb
      · simp at hb
      · simp at hb
        subst hb
        rw [List.length_append, length_flowMod_fieldBytes, length_flatten_map_marshal,
          ← size_of_sequence_eq_sum, size_of_sequence_move]
        simp [Message.size_of, FlowMod.size_of, Pattern.size_of, OfpHeader.size]
    | PacketOut po =>
      simp [Message.marshal_body] at hb
      subst hb
      show 8 + (PacketOut.headBytes po ++
        ((Action.move_controller_last po.apply_actions).map Action.marshal).flatten ++
        Payload.marshal po.output_payload).length = _
      rw [List.length_append, List.length_append, length_packetOut_headBytes,
        length_flatten_map_marshal, length_payload_marshal,
        ← size_of_sequence_eq_sum, size_of_sequence_move]
      simp [Message.size_of, PacketOut.size_of, OfpHeader.size]
    | Error err => simp [Message.marshalsFullBody] at hgood
    | FeaturesReply feats => simp [Message.marshalsFullBody] at hgood
    | PacketIn pi => simp [Message.marshalsFullBody] at hgood
    | FlowRemoved f => simp [Message.marshalsFullBody] at hgood
    | PortStatus ps => simp [Message.marshalsFullBody] at hgood
  have hout : out.length = Message.size_of m := by
    rw [houtdef]
    simp [List.length_append, hhd]
    omega
  exact ⟨hout, by rw [hfield, hout]⟩

/-- C2 (witness): the EchoRequest of scenario S2 with payload `AA BB CC`. -/
theorem c2_header_length_amended_witness :
    ([1, 2, 0, 11, 0, 0, 0, 7, 0xAA, 0xBB, 0xCC] : List Nat).length =
      Message.size_of (Message.EchoRequest [0xAA, 0xBB, 0xCC]) ∧
    lengthFieldOf [1, 2, 0, 11, 0, 0, 0, 7, 0xAA, 0xBB, 0xCC] =
      ([1, 2, 0, 11, 0, 0, 0, 7, 0xAA, 0xBB, 0xCC] : List Nat).length :=
  c2_header_length_amended 7 (Message.EchoRequest [0xAA, 0xBB, 0xCC])
    [1, 2, 0, 11, 0, 0, 0, 7, 0xAA, 0xBB, 0xCC] (by decide) (by decide) (by decide)

end RustOfp
